import Mathlib

/-!
Shallow embedding of `msticpy/sectools/vtlookupv3.py` (class `VTLookupV3`).

The module is a synchronous client over the VirusTotal v3 API.  The remote
API, the transport and the graph service are external collaborators: they are
modelled as oracle functions (`Backend`) and as an explicit client state
(`ClientState`) that records whether the transport connection has been closed
and which network calls were issued, in order.  Pandas DataFrames are
modelled as lists of rows; a one-object `pd.json_normalize` always yields
exactly one row, so `_parse_vt_object` returns a single `Row`.

Python exceptions are modelled by `PyError`:
  * `unsupportedKind` - the `ValueError` raised by `VTEntityType(vt_type)` on
    a string outside the enumeration (the explicit
    `raise KeyError("Property type ... not supported")` branches are dead
    code: every member of `VTEntityType` is in `_SUPPORTED_VT_TYPES`);
  * `keyError k` - a Python `KeyError` for key/column `k`;
  * `typeError` - indexing a non-dict value;
  * `lookupFailed` - `Exception("It was not possible to get the data")`;
  * `emptyInput` - `ValueError("There are no relationship DataFrames")`.
-/

namespace VTV3

/-- Enum `VTEntityType`: the closed enumeration of VirusTotal entity types. -/
inductive VTEntityType where
  | file
  | domain
  | ip_address
  | url
deriving DecidableEq, Repr

/-- The `.value` of each enum member. -/
def VTEntityType.value : VTEntityType → String
  | .file => "file"
  | .domain => "domain"
  | .ip_address => "ip_address"
  | .url => "url"

/-- Applying `VTEntityType(s)` to a string: `some` member, or `none` for the
`ValueError` raised on a value outside the enumeration. -/
def VTEntityType.ofString : String → Option VTEntityType
  | "file" => some .file
  | "domain" => some .domain
  | "ip_address" => some .ip_address
  | "url" => some .url
  | _ => none

/-- Mapping `_MAPPING_TYPES_ENDPOINT`.  `_get_endpoint_name` on a member of the
enumeration always succeeds, since `_SUPPORTED_VT_TYPES` holds all four
members and the mapping is total on them. -/
def endpointName : VTEntityType → String
  | .file => "files"
  | .url => "urls"
  | .ip_address => "ip_addresses"
  | .domain => "domains"

/-- Mapping `_BASIC_PROPERTIES_PER_TYPE` (Python stores a set per type; only
membership matters to the code, we keep the source's listing order). -/
def basicProperties : VTEntityType → List String
  | .file => ["type_description", "size", "first_submission_date",
              "last_submission_date", "times_submitted", "meaningful_name"]
  | .url => ["first_submission_date", "last_submission_date", "times_submitted"]
  | .ip_address => ["date", "country", "asn", "as_owner"]
  | .domain => ["id", "creation_date", "last_update_date", "country"]

/-- A JSON-ish attribute value as found in a VT object's attribute dict. -/
inductive AttrValue where
  | str (s : String)
  | nat (n : Nat)
  | stats (m : List (String × Nat))
deriving DecidableEq, Repr

/-- A `vt.object.Object` as seen through `to_dict()`:
`attributes = none` models a dict without the `"attributes"` key;
`relationships` models `response.relationships` with each relationship's
`meta.count` (the only part the code reads). -/
structure VTObject where
  id : String
  vtype : String
  attributes : Option (List (String × AttrValue))
  relationships : List (String × Nat)
deriving DecidableEq, Repr

/-- The Python exceptions the module raises (see module docstring). -/
inductive PyError where
  | unsupportedKind
  | keyError (k : String)
  | typeError
  | lookupFailed
  | emptyInput
deriving DecidableEq, Repr

/-- One DataFrame row: an ordered association list of column name to value
(the `id` column doubles as the index after `set_index`). -/
structure Row where
  cells : List (String × AttrValue)
deriving DecidableEq, Repr

/-- Value of column `c` in a row, `none` when the column is absent. -/
def Row.get (r : Row) (c : String) : Option AttrValue :=
  (r.cells.find? (fun p => p.1 == c)).map (fun p => p.2)

/-- Python dict lookup `d[k]` on a string-keyed association list. -/
def lookupAttr (l : List (String × AttrValue)) (k : String) : Option AttrValue :=
  (l.find? (fun p => p.1 == k)).map (fun p => p.2)

/-- Dict lookup in a `last_analysis_stats` mapping. -/
def lookupCount (l : List (String × Nat)) (k : String) : Option Nat :=
  (l.find? (fun p => p.1 == k)).map (fun p => p.2)

/-- Python `sum(last_analysis_stats.values())`. -/
def statsSum (l : List (String × Nat)) : Nat :=
  (l.map (fun p => p.2)).sum

/-- Classmethod `_parse_vt_object`: flatten one VT object into a one-row frame.
When the `"attributes"` key is present: parse the object's type (a
`ValueError` on an unknown type string; the subsequent explicit `KeyError`
branch is unreachable), keep the basic properties of that type that are
present, read `attributes["last_analysis_stats"]` (a `KeyError` when
absent), set `detections` to its `"malicious"` entry (a `KeyError` when
absent) and `scans` to the sum of its values.  When `"attributes"` is
absent, the frame is empty before the id/type injection.  Either way the
`id` and `type` columns are injected last and the frame is keyed by `id`. -/
def parse_vt_object (o : VTObject) : Except PyError Row :=
  match o.attributes with
  | some attributes =>
    match VTEntityType.ofString o.vtype with
    | none => .error .unsupportedKind
    | some vt_type =>
      let obj := (basicProperties vt_type).filterMap
        (fun k => (lookupAttr attributes k).map (fun v => (k, v)))
      match lookupAttr attributes "last_analysis_stats" with
      | none => .error (.keyError "last_analysis_stats")
      | some (.str _) => .error .typeError
      | some (.nat _) => .error .typeError
      | some (.stats last_analysis_stats) =>
        match lookupCount last_analysis_stats "malicious" with
        | none => .error (.keyError "malicious")
        | some malicious =>
          .ok ⟨obj ++ [("detections", .nat malicious),
                       ("scans", .nat (statsSum last_analysis_stats)),
                       ("id", .str o.id), ("type", .str o.vtype)]⟩
  | none => .ok ⟨[("id", .str o.id), ("type", .str o.vtype)]⟩

/-- The observable transport state of the `vt.Client` held by a
`VTLookupV3` instance: whether `close()` has been called, and the network
requests issued so far, each stamped with the value of `closed` at the
moment the request was made (`get_object` fetches and `iterator` pagings
are recorded separately, in chronological order). -/
structure ClientState where
  closed : Bool
  getObjectCalls : List (String × Bool)
  iteratorCalls : List (String × Bool)
deriving DecidableEq, Repr

/-- The client right after `VTLookupV3.__init__`: connection open, no
request issued yet. -/
def initialState : ClientState := ⟨false, [], []⟩

/-- Record a `get_object` request for `path`. -/
def ClientState.recordGet (st : ClientState) (path : String) : ClientState :=
  { st with getObjectCalls := st.getObjectCalls ++ [(path, st.closed)] }

/-- Record an `iterator` paging request for `path`. -/
def ClientState.recordIter (st : ClientState) (path : String) : ClientState :=
  { st with iteratorCalls := st.iteratorCalls ++ [(path, st.closed)] }

/-- Call `self._vt_client.close()`. -/
def ClientState.close (st : ClientState) : ClientState :=
  { st with closed := true }

/-- The remote API as an oracle: `get_object` returns an object or fails;
`iterator path limit` returns the paged list of objects or fails.  The
`Unit` error is any transport/HTTP failure. -/
structure Backend where
  getObject : String → Except Unit VTObject
  iterator : String → Nat → Except Unit (List VTObject)

/-- Method `lookup_ioc(observable, vt_type)`.  `VTEntityType(vt_type)` raises on a
string outside the enumeration, before any network access and before the
`try` block, so the connection is untouched there (the explicit
`raise KeyError` guard is dead code).  Otherwise one `get_object` fetch is
issued inside `try ... except: raise Exception(...) finally: close()`:
any fetch or parse failure becomes the generic failure, and the connection
is closed on both the success and the failure path of the fetch. -/
def lookup_ioc (be : Backend) (st : ClientState) (observable vt_type : String) :
    Except PyError Row × ClientState :=
  match VTEntityType.ofString vt_type with
  | none => (.error .unsupportedKind, st)
  | some t =>
    let path := "/" ++ endpointName t ++ "/" ++ observable
    let st1 := st.recordGet path
    let result : Except PyError Row :=
      match be.getObject path with
      | .error _ => .error .lookupFailed
      | .ok o =>
        match parse_vt_object o with
        | .error _ => .error .lookupFailed
        | .ok row => .ok row
    (result, st1.close)

/-- The stub row `pd.DataFrame(data=[[observable, observable_type]],
columns=[ID, TYPE]).set_index(ID)` emitted for a failed batch item. -/
def stubRow (observable observable_type : String) : Row :=
  ⟨[("id", .str observable), ("type", .str observable_type)]⟩

/-- The input table of a batch lookup, as it stands after
`reset_index()`: column names plus string-valued rows aligned with them. -/
structure ObsFrame where
  columns : List String
  rows : List (List String)
deriving DecidableEq, Repr

/-- Projection `_observables_df[c]` (first column with that name). -/
def ObsFrame.column (f : ObsFrame) (c : String) : List String :=
  match f.columns.indexOf? c with
  | none => []
  | some i => f.rows.map (fun r => r.getD i "")

/-- The per-row loop of `lookup_iocs`: each `(observable, type)` pair is
looked up; a failure is caught, logged and replaced by a stub row; the
one-row results are concatenated in input order. -/
def lookupIocsGo (be : Backend) : ClientState → List (String × String) →
    List Row × ClientState
  | st, [] => ([], st)
  | st, (observable, observable_type) :: rest =>
    let res := lookup_ioc be st observable observable_type
    let row := match res.1 with
      | .ok row => row
      | .error _ => stubRow observable observable_type
    let rest' := lookupIocsGo be res.2 rest
    (row :: rest'.1, rest'.2)

/-- Method `lookup_iocs(observables_df, observable_column, observable_type_column)`.
Each named column is checked first, in order; a missing one raises
`KeyError(f"Column {column} not found in observables_df")` before any
lookup.  Then the two columns are zipped and driven through the per-row
loop; the result is the concatenation of the per-row frames (empty frame
for an empty input). -/
def lookup_iocs (be : Backend) (st : ClientState) (f : ObsFrame)
    (observable_column observable_type_column : String) :
    Except PyError (List Row) × ClientState :=
  if ¬ f.columns.contains observable_column then
    (.error (.keyError observable_column), st)
  else if ¬ f.columns.contains observable_type_column then
    (.error (.keyError observable_type_column), st)
  else
    let pairs := (f.column observable_column).zip (f.column observable_type_column)
    let res := lookupIocsGo be st pairs
    (.ok res.1, res.2)

/-- One row of a relationship frame after the stamping, `reset_index`,
rename (`id` to `target`, `type` to `target_type`) and
`set_index([source, target])` steps of `lookup_ioc_relationships`. -/
structure RelRow where
  source : String
  target : String
  source_type : String
  target_type : String
  relationship_type : String
  attrs : List (String × AttrValue)
deriving DecidableEq, Repr

/-- Read a string cell (the injected `id`/`type` cells are always strings). -/
def cellStr : Option AttrValue → String
  | some (.str s) => s
  | _ => ""

/-- Stamp one parsed object row with source id, source kind and
relationship name, and re-key it by (source, target): the parsed row's
`id`/`type` columns become `target`/`target_type`, its other columns are
kept. -/
def stampRelRow (observable : String) (t : VTEntityType) (relationship : String)
    (r : Row) : RelRow :=
  { source := observable
    target := cellStr (r.get "id")
    source_type := t.value
    target_type := cellStr (r.get "type")
    relationship_type := relationship
    attrs := r.cells.filter (fun c => c.1 != "id" && c.1 != "type") }

/-- Comprehension `[self._parse_vt_object(r) for r in response]`: the first raising parse
aborts the comprehension and its exception propagates. -/
def parseAll : List VTObject → Except PyError (List Row)
  | [] => .ok []
  | o :: rest =>
    match parse_vt_object o with
    | .error e => .error e
    | .ok r =>
      match parseAll rest with
      | .error e => .error e
      | .ok rs => .ok (r :: rs)

/-- Method `lookup_ioc_relationships(observable, vt_type, relationship, limit)`.
`VTEntityType(vt_type)` raises on an unknown kind before any network call.
With no limit, a metadata-only `get_object` fetch (with
`?relationship_counters=true`) reads the relationship's `meta.count`,
defaulting to `0` when the relationship is absent; any failure there is
caught and an empty frame is returned (without touching the connection).
A resolved limit of `0` (or `None`) returns an empty frame, again without
touching the connection.  Otherwise one `iterator` paging request (fixed
`batch_size=40`; a request-size knob the model need not carry) runs inside
`try ... except: raise Exception(...) finally: close()`: every paged
object is parsed and stamped, failures become the generic failure, and the
connection is closed on success and failure of the paging alike. -/
def lookup_ioc_relationships (be : Backend) (st : ClientState)
    (observable vt_type relationship : String) (limit : Option Nat) :
    Except PyError (List RelRow) × ClientState :=
  match VTEntityType.ofString vt_type with
  | none => (.error .unsupportedKind, st)
  | some t =>
    let endpoint_name := endpointName t
    let metaRes : Option Nat × ClientState :=
      match limit with
      | some l => (some l, st)
      | none =>
        let metaPath := "/" ++ endpoint_name ++ "/" ++ observable ++
          "?relationship_counters=true"
        let st1 := st.recordGet metaPath
        match be.getObject metaPath with
        | .error _ => (none, st1)
        | .ok o => (some ((lookupCount o.relationships relationship).getD 0), st1)
    match metaRes with
    | (none, st1) => (.ok [], st1)
    | (some l, st1) =>
      if l = 0 then (.ok [], st1)
      else
        let relPath := "/" ++ endpoint_name ++ "/" ++ observable ++
          "/relationships/" ++ relationship
        let st2 := st1.recordIter relPath
        let result : Except PyError (List RelRow) :=
          match be.iterator relPath l with
          | .error _ => .error .lookupFailed
          | .ok objects =>
            match parseAll objects with
            | .error _ => .error .lookupFailed
            | .ok rows => .ok (rows.map (stampRelRow observable t relationship))
        (result, st2.close)

/-- Auxiliary for `groupbyFirst`: keep the first pair for every key not in
`seen`, in order, remembering which keys have been emitted. -/
def groupbyFirstAux : List (String × String) → List String → List (String × String)
  | [], _ => []
  | (k, v) :: rest, seen =>
    if seen.contains k then groupbyFirstAux rest seen
    else (k, v) :: groupbyFirstAux rest (k :: seen)

/-- Pandas `groupby(key).first()` over an association list: one entry per distinct
key, carrying the first value seen for that key in original row order.
(pandas emits the groups sorted by key; only the row order of the result
differs from the first-seen order used here, and nothing below depends on
that order.) -/
def groupbyFirst (l : List (String × String)) : List (String × String) :=
  groupbyFirstAux l []

/-- What `create_vt_graph` hands to the external graph service: the
`add_node` calls, the `add_link` calls (both in order), the graph name and
the privacy flag of the `VTGraph` constructor, before `save_graph`. -/
structure GraphSubmission where
  nodes : List (String × String)
  links : List (String × String × String)
  name : String
  isPrivate : Bool
deriving DecidableEq, Repr

/-- Method `create_vt_graph(relationship_dfs, name, private)`.  An empty list of
frames raises `ValueError`.  The frames are concatenated; the node frame is
the concatenation (`pd.concat`) of the per-source and per-target
`groupby(...).first()` frames, each renamed to `id`/`type`; every node row
becomes an `add_node` call and every concatenated edge row an `add_link`
call, in row order. -/
def create_vt_graph (relationship_dfs : List (List RelRow)) (name : String)
    (isPrivate : Bool) : Except PyError GraphSubmission :=
  if relationship_dfs.length = 0 then .error .emptyInput
  else
    let concatenated := relationship_dfs.flatten
    let sources_df := groupbyFirst (concatenated.map (fun r => (r.source, r.source_type)))
    let target_df := groupbyFirst (concatenated.map (fun r => (r.target, r.target_type)))
    let nodes_df := sources_df ++ target_df
    let links := concatenated.map (fun r => (r.source, r.target, r.relationship_type))
    .ok ⟨nodes_df, links, name, isPrivate⟩

/-- A backend whose every request fails at the transport. -/
def beFail : Backend :=
  { getObject := fun _ => .error ()
    iterator := fun _ _ => .error () }

/-- The mocked backend of the spec's worked example: fetching
`/files/abc123` returns a `file` object with attributes
`type_description: "PE32"`, `size: 1024` and
`last_analysis_stats: {malicious: 3, harmless: 60}`. -/
def beExample : Backend :=
  { getObject := fun p =>
      if p = "/files/abc123" then
        .ok ⟨"abc123", "file",
          some [("type_description", .str "PE32"), ("size", .nat 1024),
                ("last_analysis_stats", .stats [("malicious", 3), ("harmless", 60)])],
          []⟩
      else .error ()
    iterator := fun _ _ => .error () }

/-- An edge table row A -> B, both nodes of kind `file`. -/
def edgeAB : RelRow := ⟨"A", "B", "file", "file", "resolutions", []⟩

/-- An edge table row B -> C, both nodes of kind `file`; shares node B
(same identifier, same kind) with the table holding `edgeAB`. -/
def edgeBC : RelRow := ⟨"B", "C", "file", "file", "resolutions", []⟩

/-- A fetched object whose attribute map is present (`size` only) but has
no `last_analysis_stats` field. -/
def objNoStats : VTObject := ⟨"x", "file", some [("size", .nat 5)], []⟩

/-- A backend on which fetching `/files/x` succeeds with `objNoStats`. -/
def beNoStats : Backend :=
  { getObject := fun p => if p = "/files/x" then .ok objNoStats else .error ()
    iterator := fun _ _ => .error () }

/-- A two-row input table for the batch lookup: `abc123` resolves against
`beExample`, `zzz` does not. -/
def frameExample : ObsFrame :=
  ⟨["target", "target_type"], [["abc123", "file"], ["zzz", "file"]]⟩

/-! Helper lemmas. -/

/-- The value returned (or the error raised) by `lookup_ioc` does not
depend on the incoming connection state, only on the backend. -/
theorem lookup_ioc_fst (be : Backend) (st st' : ClientState)
    (observable vt_type : String) :
    (lookup_ioc be st observable vt_type).1 =
      (lookup_ioc be st' observable vt_type).1 := by
  unfold lookup_ioc
  cases VTEntityType.ofString vt_type <;> rfl

/-- The per-row loop emits, for each input pair in order, the looked-up row
on success and the stub row on failure. -/
theorem lookupIocsGo_fst (be : Backend) :
    ∀ (pairs : List (String × String)) (st : ClientState),
    (lookupIocsGo be st pairs).1 = pairs.map (fun p =>
      match (lookup_ioc be initialState p.1 p.2).1 with
      | .ok r => r
      | .error _ => stubRow p.1 p.2)
  | [], _ => rfl
  | (a, b) :: rest, st => by
    simp only [lookupIocsGo, List.map_cons]
    rw [lookupIocsGo_fst be rest, lookup_ioc_fst be st initialState a b]

/-- Projecting a column that is present yields one entry per input row. -/
theorem column_length (f : ObsFrame) (c : String)
    (h : f.columns.contains c = true) :
    (f.column c).length = f.rows.length := by
  have hne : f.columns.indexOf? c ≠ none := by
    intro hn
    rw [List.indexOf?_eq_none_iff] at hn
    rw [List.contains_iff_exists_mem_beq] at h
    obtain ⟨x, hx, hbeq⟩ := h
    exact hn x hx (by simp [eq_of_beq hbeq])
  unfold ObsFrame.column
  cases hi : f.columns.indexOf? c with
  | none => exact absurd hi hne
  | some i => simp

/-- One `lookup_ioc` step preserves the trace invariant: once a request has
been recorded the connection is closed, and every recorded request but the
first was made on a closed connection. -/
theorem lookup_ioc_trace_step (be : Backend) (st : ClientState) (a b : String)
    (h1 : st.getObjectCalls ≠ [] → st.closed = true)
    (h2 : st.getObjectCalls.tail.all (fun e => e.2) = true) :
    ((lookup_ioc be st a b).2.getObjectCalls ≠ [] →
        (lookup_ioc be st a b).2.closed = true) ∧
      (lookup_ioc be st a b).2.getObjectCalls.tail.all (fun e => e.2) = true := by
  unfold lookup_ioc
  cases hof : VTEntityType.ofString b with
  | none => exact ⟨h1, h2⟩
  | some t =>
    simp only [ClientState.recordGet, ClientState.close]
    refine ⟨by simp, ?_⟩
    cases hc : st.getObjectCalls with
    | nil => simp
    | cons e rest =>
      have hcl : st.closed = true := h1 (by simp [hc])
      rw [hc] at h2
      simp only [List.tail_cons] at h2
      simp [List.cons_append, List.all_append, h2, hcl]

/-- The batch loop preserves the trace invariant of
`lookup_ioc_trace_step`. -/
theorem lookupIocsGo_trace (be : Backend) :
    ∀ (pairs : List (String × String)) (st : ClientState),
    (st.getObjectCalls ≠ [] → st.closed = true) →
    st.getObjectCalls.tail.all (fun e => e.2) = true →
    ((lookupIocsGo be st pairs).2.getObjectCalls ≠ [] →
        (lookupIocsGo be st pairs).2.closed = true) ∧
      (lookupIocsGo be st pairs).2.getObjectCalls.tail.all (fun e => e.2) = true
  | [], st, h1, h2 => ⟨h1, h2⟩
  | (a, b) :: rest, st, h1, h2 => by
    have step := lookup_ioc_trace_step be st a b h1 h2
    simpa only [lookupIocsGo] using
      lookupIocsGo_trace be rest (lookup_ioc be st a b).2 step.1 step.2

/-- Key multiplicity in `groupbyFirstAux`: a key occurs once when it is in
the input and not yet seen, else not at all. -/
theorem count_groupbyFirstAux (k : String) :
    ∀ (l : List (String × String)) (seen : List String),
    ((groupbyFirstAux l seen).map Prod.fst).count k =
      if k ∈ l.map Prod.fst ∧ k ∉ seen then 1 else 0
  | [], seen => by simp [groupbyFirstAux]
  | (a, v) :: rest, seen => by
    by_cases hseen : a ∈ seen
    · have hstep : groupbyFirstAux ((a, v) :: rest) seen
          = groupbyFirstAux rest seen := by
        simp [groupbyFirstAux, hseen]
      rw [hstep, count_groupbyFirstAux k rest seen]
      by_cases hak : a = k
      · subst hak
        simp [hseen]
      · have hka : ¬ k = a := fun h => hak h.symm
        simp only [List.map_cons, List.mem_cons, hka, false_or]
    · have hstep : groupbyFirstAux ((a, v) :: rest) seen
          = (a, v) :: groupbyFirstAux rest (a :: seen) := by
        simp [groupbyFirstAux, hseen]
      rw [hstep]
      simp only [List.map_cons, List.count_cons]
      rw [count_groupbyFirstAux k rest (a :: seen)]
      by_cases hak : a = k
      · subst hak
        simp [hseen]
      · have hka : ¬ k = a := fun h => hak h.symm
        have hbeq : (a == k) = false := beq_false_of_ne hak
        simp only [List.mem_cons, hka, false_or, hbeq, Bool.false_eq_true,
          if_false, Nat.add_zero]

/-- Lemma: `groupby(key).first()` emits every distinct input key exactly once. -/
theorem count_groupbyFirst (l : List (String × String)) (k : String) :
    ((groupbyFirst l).map Prod.fst).count k =
      if k ∈ l.map Prod.fst then 1 else 0 := by
  rw [groupbyFirst, count_groupbyFirstAux]
  simp only [List.not_mem_nil, not_false_iff, and_true]

/-! Claim theorems. -/

/-- C1, counterexample: two edge tables sharing node B (same identifier,
same kind, as target of the first and source of the second) yield a node
list in which "B" appears twice, not once: the per-source and per-target
node frames are concatenated by `pd.concat`, not unioned. -/
theorem createVtGraph_shared_node_twice :
    (create_vt_graph [[edgeAB], [edgeBC]] "g" true).map
        (fun g => (g.nodes.map Prod.fst).count "B") = .ok 2
    ∧ ¬ (create_vt_graph [[edgeAB], [edgeBC]] "g" true).map
        (fun g => (g.nodes.map Prod.fst).count "B") = .ok 1 := by
  refine ⟨rfl, fun hc => ?_⟩
  have h2 : (create_vt_graph [[edgeAB], [edgeBC]] "g" true).map
      (fun g => (g.nodes.map Prod.fst).count "B") = .ok 2 := rfl
  rw [h2] at hc
  simp at hc

/-- C1, amended: `create_vt_graph` deduplicates identifiers within the
source role and within the target role separately: every identifier
appears in the node list once per role it occurs in.  An identifier
occurring only as a source, or only as a target (in however many tables),
appears exactly once; an identifier occurring both as a source and as a
target appears twice, because the two per-role node frames are
concatenated, not unioned. -/
theorem createVtGraph_node_count (relationship_dfs : List (List RelRow))
    (name : String) (isPrivate : Bool) (x : String)
    (h : relationship_dfs.length ≠ 0) :
    (create_vt_graph relationship_dfs name isPrivate).map
        (fun g => (g.nodes.map Prod.fst).count x) =
      .ok ((if x ∈ relationship_dfs.flatten.map (fun r => r.source) then 1 else 0) +
        (if x ∈ relationship_dfs.flatten.map (fun r => r.target) then 1 else 0)) := by
  simp only [create_vt_graph, h, if_false, Except.map]
  rw [List.map_append, List.count_append]
  rw [count_groupbyFirst, count_groupbyFirst]
  simp [List.map_map, Function.comp]

/-- C1, witness for the amended claim: at the concrete pair of tables of
the counterexample, node "B" (a target of one table and a source of the
other) is counted once per role. -/
theorem createVtGraph_node_count_witness :
    (create_vt_graph [[edgeAB], [edgeBC]] "g" true).map
        (fun g => (g.nodes.map Prod.fst).count "B") = .ok 2 :=
  createVtGraph_node_count [[edgeAB], [edgeBC]] "g" true "B" (by decide)

/-- C2, counterexample: a call to `lookup_ioc` that fails on kind
validation (the kind string is outside the enumeration) raises before the
`try/finally` block, so it does NOT close the transport connection: the
claim's "after any call to `lookup_ioc` (success or failure) the
connection is closed" is false. -/
theorem lookup_ioc_failure_leaves_open :
    (lookup_ioc beFail initialState "HKLM-run" "registry_key").1 =
        .error .unsupportedKind
    ∧ ((lookup_ioc beFail initialState "HKLM-run" "registry_key").2).closed
        = false :=
  ⟨rfl, rfl⟩

/-- C2, amended: after a call to `lookup_ioc` the connection is closed if
and only if it was already closed or the kind string parses (any call
reaching the fetch closes it in `finally`, on success and failure alike,
and no call ever reopens it); consequently, in `lookup_iocs`, every
recorded network request after the first one executes with the transport
connection already closed. -/
theorem lookup_ioc_close_discipline (be : Backend) (st : ClientState)
    (observable vt_type : String) (f : ObsFrame)
    (observable_column observable_type_column : String) :
    (lookup_ioc be st observable vt_type).2.closed =
        (st.closed || (VTEntityType.ofString vt_type).isSome)
    ∧ (lookup_iocs be initialState f observable_column
        observable_type_column).2.getObjectCalls.tail.all (fun e => e.2) = true := by
  constructor
  · unfold lookup_ioc
    cases VTEntityType.ofString vt_type with
    | none => simp
    | some t => simp [ClientState.recordGet, ClientState.close]
  · unfold lookup_iocs
    split
    · rfl
    · split
      · rfl
      · exact (lookupIocsGo_trace be _ initialState
          (fun hne => absurd rfl hne) rfl).2

/-- C3, counterexample: `lookup_ioc_relationships` called with a supported
kind and an explicit limit of 0 returns (successfully) without releasing
the transport connection, so the connection is NOT released on every exit
path. -/
theorem relationships_limit_zero_leaves_open :
    (lookup_ioc_relationships beFail initialState "abc" "file" "resolutions"
        (some 0)).1 = .ok []
    ∧ ((lookup_ioc_relationships beFail initialState "abc" "file" "resolutions"
        (some 0)).2).closed = false :=
  ⟨rfl, rfl⟩

/-- C3, amended: `lookup_ioc_relationships` releases the connection exactly
on the paging path: on exit the connection is closed if and only if it
already was, or a paging request was issued (whose `finally` closes it on
success and failure alike).  The unsupported-kind exit, the
metadata-fetch-failure exit and the zero-limit exit all leave the
connection as it was. -/
theorem relationships_close_iff_paging (be : Backend) (st : ClientState)
    (observable vt_type relationship : String) (limit : Option Nat) :
    (lookup_ioc_relationships be st observable vt_type relationship limit).2.closed =
      (st.closed || decide (st.iteratorCalls.length <
        (lookup_ioc_relationships be st observable vt_type relationship
          limit).2.iteratorCalls.length)) := by
  unfold lookup_ioc_relationships
  cases hof : VTEntityType.ofString vt_type with
  | none => simp
  | some t =>
    cases limit with
    | some l =>
      by_cases hl : l = 0
      · simp [hl]
      · simp [hl, ClientState.recordIter, ClientState.close]
    | none =>
      cases hget : be.getObject ("/" ++ endpointName t ++ "/" ++ observable ++
          "?relationship_counters=true") with
      | error e => simp [hget, ClientState.recordGet]
      | ok o =>
        by_cases hl : (lookupCount o.relationships relationship).getD 0 = 0
        · simp [hget, hl, ClientState.recordGet]
        · simp [hget, hl, ClientState.recordGet, ClientState.recordIter,
            ClientState.close]

/-- C4: for a kind string outside the closed enumeration, both operations
taking a kind fail with the unsupported-kind error and leave the client
state untouched: no network request of either sort is issued. -/
theorem unsupported_kind_before_network (be : Backend) (st : ClientState)
    (observable vt_type relationship : String) (limit : Option Nat)
    (h : VTEntityType.ofString vt_type = none) :
    lookup_ioc be st observable vt_type = (.error .unsupportedKind, st)
    ∧ lookup_ioc_relationships be st observable vt_type relationship limit =
        (.error .unsupportedKind, st) := by
  constructor
  · simp [lookup_ioc, h]
  · simp [lookup_ioc_relationships, h]

/-- C4, witness: the kind "registry_key" is rejected by both operations
with no state change. -/
theorem unsupported_kind_before_network_witness :
    lookup_ioc beFail initialState "HKLM-run" "registry_key" =
        (.error .unsupportedKind, initialState)
    ∧ lookup_ioc_relationships beFail initialState "HKLM-run" "registry_key"
        "resolutions" none = (.error .unsupportedKind, initialState) :=
  unsupported_kind_before_network beFail initialState "HKLM-run" "registry_key"
    "resolutions" none rfl

/-- C5: when both configured columns are present, `lookup_iocs` succeeds
and returns one row per input pair, in input order: the looked-up record
where the per-row lookup succeeds and the id/kind stub row where it fails
(so N rows for N inputs of which M fail: N-M records plus M stubs), and
the zipped pair list has exactly one entry per input row. -/
theorem lookup_iocs_row_per_input (be : Backend) (st : ClientState) (f : ObsFrame)
    (observable_column observable_type_column : String)
    (h1 : f.columns.contains observable_column = true)
    (h2 : f.columns.contains observable_type_column = true) :
    (lookup_iocs be st f observable_column observable_type_column).1 =
      .ok (((f.column observable_column).zip (f.column observable_type_column)).map
        (fun p => match (lookup_ioc be initialState p.1 p.2).1 with
          | .ok r => r
          | .error _ => stubRow p.1 p.2))
    ∧ ((f.column observable_column).zip (f.column observable_type_column)).length
        = f.rows.length := by
  constructor
  · simp only [lookup_iocs, h1, h2, not_true, if_false]
    rw [lookupIocsGo_fst]
  · rw [List.length_zip, column_length f _ h1, column_length f _ h2, Nat.min_self]

/-- C5, witness: over the two-row example table (one resolving row, one
failing row) the batch returns both per-row results in order. -/
theorem lookup_iocs_row_per_input_witness :
    (lookup_iocs beExample initialState frameExample "target" "target_type").1 =
      .ok (((frameExample.column "target").zip
          (frameExample.column "target_type")).map
        (fun p => match (lookup_ioc beExample initialState p.1 p.2).1 with
          | .ok r => r
          | .error _ => stubRow p.1 p.2))
    ∧ ((frameExample.column "target").zip
        (frameExample.column "target_type")).length = frameExample.rows.length :=
  lookup_iocs_row_per_input beExample initialState frameExample "target"
    "target_type" rfl rfl

/-- C6: against the mocked backend of the spec's example, looking up kind
`file`, value "abc123" yields the single row keyed "abc123" whose
`detections` is the malicious count 3 and whose `scans` is the sum 63 of
all verdict counts (with the present basic file attributes kept). -/
theorem lookup_ioc_example :
    lookup_ioc beExample initialState "abc123" "file" =
      (.ok ⟨[("type_description", .str "PE32"), ("size", .nat 1024),
             ("detections", .nat 3), ("scans", .nat 63),
             ("id", .str "abc123"), ("type", .str "file")]⟩,
       ⟨true, [("/files/abc123", false)], []⟩)
    ∧ (lookup_ioc beExample initialState "abc123" "file").1.map
        (fun r => (r.get "id", r.get "detections", r.get "scans")) =
      .ok (some (.str "abc123"), some (.nat 3), some (.nat 63)) :=
  ⟨rfl, rfl⟩

/-- C7: with no limit given, when the metadata fetch fails or succeeds
without listing the requested relationship, `lookup_ioc_relationships`
returns an empty frame and raises nothing. -/
theorem relationships_no_limit_absent (be : Backend) (st : ClientState)
    (observable vt_type relationship : String) (t : VTEntityType)
    (h : VTEntityType.ofString vt_type = some t)
    (hmeta : be.getObject ("/" ++ endpointName t ++ "/" ++ observable ++
          "?relationship_counters=true") = .error ()
      ∨ ∃ o, be.getObject ("/" ++ endpointName t ++ "/" ++ observable ++
            "?relationship_counters=true") = .ok o
          ∧ lookupCount o.relationships relationship = none) :
    (lookup_ioc_relationships be st observable vt_type relationship none).1 =
      .ok [] := by
  rcases hmeta with hmeta | ⟨o, hmeta, habs⟩
  · simp [lookup_ioc_relationships, h, hmeta]
  · simp [lookup_ioc_relationships, h, hmeta, habs]

/-- C7, witness: with a failing metadata fetch the no-limit relationship
lookup returns the empty frame. -/
theorem relationships_no_limit_absent_witness :
    (lookup_ioc_relationships beFail initialState "abc" "domain" "resolutions"
        none).1 = .ok [] :=
  relationships_no_limit_absent beFail initialState "abc" "domain" "resolutions"
    .domain rfl (Or.inl rfl)

/-- C8: when a configured column is missing from the input table,
`lookup_iocs` fails with the missing-column `KeyError` (naming the first
missing column in check order) and the client state is untouched: zero
per-item lookups are performed. -/
theorem lookup_iocs_missing_column (be : Backend) (st : ClientState) (f : ObsFrame)
    (observable_column observable_type_column : String)
    (h : f.columns.contains observable_column = false
      ∨ f.columns.contains observable_type_column = false) :
    lookup_iocs be st f observable_column observable_type_column =
      (.error (.keyError (if f.columns.contains observable_column
        then observable_type_column else observable_column)), st) := by
  rcases h with h | h
  · have h' : observable_column ∉ f.columns := by simpa using h
    simp [lookup_iocs, h']
  · have h' : observable_type_column ∉ f.columns := by simpa using h
    by_cases h1 : observable_column ∈ f.columns
    · simp [lookup_iocs, h', h1]
    · simp [lookup_iocs, h', h1]

/-- C8, witness: a table lacking the default value column fails with the
missing-column error and no lookup. -/
theorem lookup_iocs_missing_column_witness :
    lookup_iocs beFail initialState ⟨["observable"], []⟩ "target" "target_type" =
      (.error (.keyError "target"), initialState) :=
  lookup_iocs_missing_column beFail initialState ⟨["observable"], []⟩ "target"
    "target_type" (Or.inl rfl)

/-- C9: with a supported kind and an explicit limit of 0,
`lookup_ioc_relationships` returns an empty frame with the client state
unchanged: in particular no paging request (and no request at all) is
issued. -/
theorem relationships_limit_zero (be : Backend) (st : ClientState)
    (observable vt_type relationship : String) (t : VTEntityType)
    (h : VTEntityType.ofString vt_type = some t) :
    lookup_ioc_relationships be st observable vt_type relationship (some 0) =
      (.ok [], st) := by
  simp [lookup_ioc_relationships, h]

/-- C9, witness: limit 0 on a `file` lookup returns the empty frame with
no request. -/
theorem relationships_limit_zero_witness :
    lookup_ioc_relationships beExample initialState "abc123" "file"
        "resolutions" (some 0) = (.ok [], initialState) :=
  relationships_limit_zero beExample initialState "abc123" "file" "resolutions"
    .file rfl

/-- C10: a fetched object of supported type whose attribute map is present
but lacks `last_analysis_stats` makes `_parse_vt_object` raise the
`KeyError` for that field, so `lookup_ioc` fails with the generic
lookup-failure error even though the remote fetch succeeded, and the basic
attributes that were present are discarded with it. -/
theorem parse_missing_stats (be : Backend) (st : ClientState)
    (observable vt_type : String) (t t2 : VTEntityType) (o : VTObject)
    (attrs : List (String × AttrValue))
    (h1 : VTEntityType.ofString vt_type = some t)
    (h2 : be.getObject ("/" ++ endpointName t ++ "/" ++ observable) = .ok o)
    (h3 : o.attributes = some attrs)
    (h4 : VTEntityType.ofString o.vtype = some t2)
    (h5 : lookupAttr attrs "last_analysis_stats" = none) :
    parse_vt_object o = .error (.keyError "last_analysis_stats")
    ∧ (lookup_ioc be st observable vt_type).1 = .error .lookupFailed := by
  have hp : parse_vt_object o = .error (.keyError "last_analysis_stats") := by
    simp [parse_vt_object, h3, h4, h5]
  refine ⟨hp, ?_⟩
  simp [lookup_ioc, h1, h2, hp]

/-- C10, witness: the object `objNoStats` (attributes present, stats
absent) fails to parse, and looking it up fails with the generic error. -/
theorem parse_missing_stats_witness :
    parse_vt_object objNoStats = .error (.keyError "last_analysis_stats")
    ∧ (lookup_ioc beNoStats initialState "x" "file").1 = .error .lookupFailed :=
  parse_missing_stats beNoStats initialState "x" "file" .file .file objNoStats
    [("size", .nat 5)] rfl rfl rfl rfl rfl

end VTV3
